import Mathlib

/-!
Verification of the returns-analytics pipeline of `streamlit_app.py`.

The embedding models the three functions holding the pipeline's logic:
`get_stock_data` (fetch, price-column fallback, returns conversion),
`generate_basic_report` (the Basic metrics table) and
`generate_quantstats_report` (tier dispatch to the external renderer).

Python floats are modelled as exact rationals; a pandas NaN result is
modelled as `Option.none`.  A provider call (`yf.Ticker(...).history(...)`)
is replaced by its outcome, of type `Except String DataFrame`, where
`Except.error msg` stands for a raised provider exception whose `str(e)`
is `msg`.
-/

/-- A return series as produced by `get_stock_data`: the pandas Series'
DatetimeIndex is modelled as a list of naive calendar dates (the timezone
normalization of lines 77-78 has already happened), paired with rational
return values. -/
abbrev ReturnSeries := List (Nat × Rat)

/-- The provider's tabular response (`ticker_obj.history(start, end)`): a
date index plus named columns.  The pandas `df.empty` test corresponds to
`dates = []`. -/
structure DataFrame where
  dates : List Nat
  cols : List (String × List Rat)

/-- Lines 88-89: `prices.pct_change().fillna(0)`.  `pct_change` sets entry i
(for i at least 1) to `prices[i]/prices[i-1] - 1` and entry 0 to NaN;
`fillna(0)` replaces that NaN by 0, so the output keeps the input's length. -/
def pct_change_fillna0 : List Rat → List Rat
  | [] => []
  | p :: ps => 0 :: List.zipWith (fun prev cur => cur / prev - 1) (p :: ps) ps

/-- Lines 80-86: the price-column fallback — the `Adj Close` column when it
is present, else the `Close` column, else the no-price-column error. -/
def resolve_prices (ticker : String) (df : DataFrame) : Except String (List Rat) :=
  match df.cols.lookup "Adj Close" with
  | some prices => Except.ok prices
  | none =>
    match df.cols.lookup "Close" with
    | some prices => Except.ok prices
    | none => Except.error ("Could not find price data for " ++ ticker)

/-- Lines 63-94: `get_stock_data`.  The whole body sits in one `try` block,
so a provider exception (the `Except.error` case of `history`) becomes the
returned pair `(None, str(e))`.  An empty frame yields the "No data found"
error, a missing price column yields the `resolve_prices` error, and
otherwise the zero-filled percent-change series is returned with its dates
and no error. -/
def get_stock_data (ticker : String) (history : Except String DataFrame) :
    Option ReturnSeries × Option String :=
  match history with
  | Except.error e => (none, some e)
  | Except.ok df =>
    if df.dates.isEmpty then
      (none, some ("No data found for " ++ ticker))
    else
      match resolve_prices ticker df with
      | Except.error e => (none, some e)
      | Except.ok prices => (some (df.dates.zip (pct_change_fillna0 prices)), none)

/-- The values of a pandas Series: a scalar metric consumes the numbers while
the date index rides along. -/
def vals (s : ReturnSeries) : List Rat := s.map Prod.snd

/-- Line 102: `(returns + 1).prod() - 1`. -/
def total_return (r : List Rat) : Rat := (r.map (fun x => x + 1)).prod - 1

/-- Arithmetic mean of a series' values.  It is only consumed here under a
length-at-least-two guard (`sampleVar`), matching its uses in the source. -/
def mean (r : List Rat) : Rat := r.sum / r.length

/-- Sample variance with pandas' default `ddof=1`; `none` models the NaN
that `Series.std()` yields on fewer than two observations. -/
def sampleVar (r : List Rat) : Option Rat :=
  if r.length < 2 then none
  else some ((r.map (fun x => (x - mean r) ^ 2)).sum / ((r.length : Rat) - 1))

/-- Pandas `returns.std()`: the square root of the sample variance. -/
noncomputable def std (r : List Rat) : Option Real :=
  (sampleVar r).map (fun v => Real.sqrt (v : Real))

/-- Line 103: `returns.std() * np.sqrt(252)`. -/
noncomputable def annual_volatility (r : List Rat) : Option Real :=
  (std r).map (fun s => s * Real.sqrt 252)

/-- Modelled from the spec: line 104 calls `qs.stats.sharpe` from the
external quantstats library, whose code is not among the repository's files.
Spec §4.4 defines Sharpe Ratio as mean(r)/stdev(r) times the square root of
252, and 0 if stdev(r) = 0. -/
noncomputable def sharpe (r : List Rat) : Option Real :=
  (std r).map (fun s => if s = 0 then 0 else ((mean r : Real) / s) * Real.sqrt 252)

/-- Cumulative products of 1 + r, as in `(1 + returns).cumprod()`. -/
def cumprod1p (r : List Rat) : List Rat :=
  (r.scanl (fun acc x => acc * (1 + x)) 1).tail

/-- Prefix maxima of a list, as in pandas `expanding().max()`. -/
def running_max : List Rat → List Rat
  | [] => []
  | x :: xs => xs.scanl max x

/-- Modelled from the spec: line 105 calls `qs.stats.max_drawdown` from the
external quantstats library, whose code is not among the repository's files.
Spec §4.4 defines it as the minimum over t of
cumprod(1+r)[t] / running-max(cumprod(1+r))[0..t] − 1; `none` models the NaN
produced on an empty series. -/
def max_drawdown (r : List Rat) : Option Rat :=
  (List.zipWith (fun p m => p / m - 1) (cumprod1p r) (running_max (cumprod1p r))).min?

/-- Line 106: `(returns > 0).mean()`, the fraction of strictly positive days;
`none` models the NaN that the mean over an empty series yields. -/
def win_rate (r : List Rat) : Option Rat :=
  if r.length = 0 then none
  else some ((r.countP (fun x => decide (0 < x)) : Rat) / (r.length : Rat))

/-- One row per metric of lines 102-108, with the source's labels in the
source's order; the value slot holds the number the f-string formats
(`none` for NaN). -/
noncomputable def basic_metric_rows (returns : List Rat) : List (String × Option Real) :=
  [("Total Return", some ((total_return returns : Rat) : Real)),
   ("Annual Volatility", annual_volatility returns),
   ("Sharpe Ratio", sharpe returns),
   ("Max Drawdown", (max_drawdown returns).map (fun q => (q : Real))),
   ("Win Rate", (win_rate returns).map (fun q => (q : Real))),
   ("Best Day", (returns.max?).map (fun q => (q : Real))),
   ("Worst Day", (returns.min?).map (fun q => (q : Real)))]

/-- The Basic report of lines 96-120: the metrics table plus the page title's
ticker; the HTML string wrapping `metrics.to_html` is presentation only.
`benchmark_returns` is a parameter of the source function that its body
never reads. -/
structure BasicReport where
  ticker : String
  rows : List (String × Option Real)

/-- Lines 96-117: `generate_basic_report`. -/
noncomputable def generate_basic_report (ticker : String)
    (returns benchmark_returns : ReturnSeries) : BasicReport :=
  { ticker := ticker, rows := basic_metric_rows (vals returns) }

/-- The outcome of one metric row of lines 102-108: the Python expression
either produces a value or raises with a message. -/
abbrev MetricStep := String × Except String Rat

/-- The sequential row appends of lines 102-108 inside the `try` block of
`generate_basic_report`: each step's value is appended in turn, and the
first exception aborts the whole block. -/
def run_metric_rows : List MetricStep → Except String (List (String × Rat))
  | [] => Except.ok []
  | (name, comp) :: rest =>
    match comp with
    | Except.error e => Except.error e
    | Except.ok v =>
      match run_metric_rows rest with
      | Except.error e => Except.error e
      | Except.ok rows => Except.ok ((name, v) :: rows)

/-- Lines 98-120: the `try`/`except` skeleton of `generate_basic_report`
over the outcomes of its metric computations — any exception inside the
block is re-raised wrapped as "Error generating basic report: ...", and no
table is returned. -/
def generate_basic_report_try (steps : List MetricStep) :
    Except String (List (String × Rat)) :=
  match run_metric_rows steps with
  | Except.ok rows => Except.ok rows
  | Except.error e => Except.error ("Error generating basic report: " ++ e)

/-- What `generate_quantstats_report` produces: either the Basic report, or
an invocation of the external renderer `qs.reports.html`, recorded with the
arguments the renderer receives (its HTML output is opaque). -/
inductive ReportOutput where
  | basic (rep : BasicReport)
  | rendered (returns : ReturnSeries) (benchmark_returns : ReturnSeries) (title : String)

/-- Lines 122-144: tier dispatch — the Basic tier returns
`generate_basic_report`'s result before the renderer is reached; any other
tier hands both series, exactly as given, to `qs.reports.html` under the
title "ticker Analysis vs benchmark". -/
noncomputable def generate_quantstats_report (ticker benchmark : String)
    (returns benchmark_returns : ReturnSeries) (report_type : String) : ReportOutput :=
  if report_type = "Basic" then
    ReportOutput.basic (generate_basic_report ticker returns benchmark_returns)
  else
    ReportOutput.rendered returns benchmark_returns (ticker ++ " Analysis vs " ++ benchmark)

/-- The renderer invocation recorded in a report outcome, if any. -/
def rendererArgs : ReportOutput → Option (ReturnSeries × ReturnSeries)
  | ReportOutput.basic _ => none
  | ReportOutput.rendered r b _ => some (r, b)

/-- C1 (amended): for every input, the Basic report's metric names are
exactly Total Return, Annual Volatility, Sharpe Ratio, Max Drawdown,
Win Rate, Best Day and Worst Day — Value at Risk, Risk of Ruin and Expected
Return are not produced. -/
theorem C1_basic_report_names (ticker : String) (returns benchmark_returns : ReturnSeries) :
    (generate_basic_report ticker returns benchmark_returns).rows.map Prod.fst =
      ["Total Return", "Annual Volatility", "Sharpe Ratio", "Max Drawdown",
       "Win Rate", "Best Day", "Worst Day"] := rfl

/-- C1 counterexample: for the concrete one-day return series of 10%, the
Basic report has no "Value at Risk" entry, so the mandated catalog of §4.4
is not covered. -/
theorem C1_cex_no_value_at_risk :
    ¬ ("Value at Risk" ∈
      (generate_basic_report "SPY" [(1, (1 : Rat)/10)] []).rows.map Prod.fst) := by
  decide

/-- C2 (amended): for every constant-zero return series with at least two
observations (so that the sample standard deviation is defined), the engine
yields Annual Volatility = 0, Sharpe Ratio = 0 (finite, via the spec's
stdev-zero guard) and Win Rate = 0. -/
theorem C2_zero_series_metrics (r : List Rat) (h2 : 2 ≤ r.length)
    (hz : ∀ x ∈ r, x = 0) :
    annual_volatility r = some 0 ∧ sharpe r = some 0 ∧ win_rate r = some 0 := by
  have hlen : ¬ r.length < 2 := by omega
  have hsum : r.sum = 0 := List.sum_eq_zero hz
  have hmean : mean r = 0 := by simp [mean, hsum]
  have hsq : (r.map (fun x => (x - mean r) ^ 2)).sum = 0 := by
    apply List.sum_eq_zero
    intro y hy
    rcases List.mem_map.mp hy with ⟨x, hx, rfl⟩
    rw [hz x hx, hmean]
    ring
  have hvar : sampleVar r = some 0 := by
    simp [sampleVar, hlen, hsq]
  have hstd : std r = some 0 := by
    simp [std, hvar]
  refine ⟨?_, ?_, ?_⟩
  · simp [annual_volatility, hstd]
  · simp [sharpe, hstd]
  · have hcount : r.countP (fun x => decide (0 < x)) = 0 := by
      apply List.countP_eq_zero.mpr
      intro a ha
      simp [hz a ha]
    have hne : ¬ r.length = 0 := by omega
    simp [win_rate, hne, hcount]

/-- C2 witness: the length-two constant-zero series. -/
theorem C2_zero_series_metrics_witness :
    (2 ≤ ([(0 : Rat), 0]).length ∧ ∀ x ∈ ([(0 : Rat), 0]), x = 0) ∧
    (annual_volatility [0, 0] = some 0 ∧ sharpe [0, 0] = some 0 ∧
      win_rate [0, 0] = some 0) :=
  ⟨⟨by decide, by decide⟩, C2_zero_series_metrics [0, 0] (by decide) (by decide)⟩

/-- C2 counterexample: the constant-zero return series of length one —
pandas' sample standard deviation of a single observation is NaN, so the
Annual Volatility slot is NaN (modelled `none`) rather than the claimed 0. -/
theorem C2_cex_single_zero_volatility_nan : annual_volatility [(0 : Rat)] = none := by
  simp [annual_volatility, std, sampleVar]

/-- C3 (amended): if any individual metric computation inside
`generate_basic_report`'s try block raises, the function raises one wrapped
"Error generating basic report" exception and returns no table at all —
there is no per-metric placeholder. -/
theorem C3_metric_failure_aborts_report (steps : List MetricStep)
    (name e : String) (hmem : (name, Except.error e) ∈ steps) :
    ∃ msg, generate_basic_report_try steps =
      Except.error ("Error generating basic report: " ++ msg) := by
  have key : ∀ l : List MetricStep, (name, Except.error e) ∈ l →
      ∃ m, run_metric_rows l = Except.error m := by
    intro l
    induction l with
    | nil => intro h; cases h
    | cons head rest ih =>
      intro h
      rcases List.mem_cons.mp h with h1 | h1
      · cases h1
        exact ⟨e, rfl⟩
      · rcases ih h1 with ⟨m, hm⟩
        rcases head with ⟨hn, hc⟩
        cases hc with
        | error e2 => exact ⟨e2, rfl⟩
        | ok v => exact ⟨m, by simp [run_metric_rows, hm]⟩
  rcases key steps hmem with ⟨m, hm⟩
  exact ⟨m, by simp [generate_basic_report_try, hm]⟩

/-- C3 witness: a step list whose second metric computation raises. -/
theorem C3_metric_failure_aborts_report_witness :
    ∃ msg, generate_basic_report_try
        [("Total Return", Except.ok 0), ("Annual Volatility", Except.error "boom")] =
      Except.error ("Error generating basic report: " ++ msg) :=
  C3_metric_failure_aborts_report _ "Annual Volatility" "boom"
    (List.Mem.tail _ (List.Mem.head _))

/-- C3 counterexample: one failing metric among three — the whole report
generation raises the wrapped exception; the two healthy metrics are not
delivered and no "not computable" marker appears. -/
theorem C3_cex_one_failure_aborts_all :
    generate_basic_report_try
        [("Total Return", Except.ok 0), ("Annual Volatility", Except.error "boom"),
         ("Sharpe Ratio", Except.ok 1)] =
      Except.error ("Error generating basic report: " ++ "boom") := rfl

/-- C4 (amended): fewer than two price points does not produce a
DegenerateSeries failure — an empty frame yields the "No data found" error,
and a single price point yields a length-one return series [(d, 0)] with no
error, for any price. -/
theorem C4_short_series_behavior (ticker : String) (d : Nat) (p : Rat)
    (cols : List (String × List Rat)) :
    get_stock_data ticker (Except.ok ⟨[], cols⟩) =
      (none, some ("No data found for " ++ ticker)) ∧
    get_stock_data ticker (Except.ok ⟨[d], [("Adj Close", [p])]⟩) =
      (some [(d, 0)], none) := by
  constructor
  · rfl
  · rfl

/-- C4 counterexample: a provider frame with a single price row — the
conversion returns the one-point return series [(5, 0)] with no error,
instead of failing. -/
theorem C4_cex_single_point_succeeds :
    get_stock_data "AAPL" (Except.ok ⟨[5], [("Close", [100])]⟩) =
      (some [(5, 0)], none) := by
  rfl

/-- C5 (amended): there is no nanPolicy parameter — the one conversion used
for both the instrument and the benchmark fetch always zero-fills: on any
non-empty price list the return list keeps the full length and its first
entry is 0. -/
theorem C5_returns_always_zero_filled (p : Rat) (ps : List Rat) :
    (pct_change_fillna0 (p :: ps)).length = (p :: ps).length ∧
    (pct_change_fillna0 (p :: ps)).head? = some 0 := by
  constructor
  · simp [pct_change_fillna0]
  · rfl

/-- C5 counterexample: the two-point price frame [100, 110] on the fetch path
shared by the instrument and the benchmark — the returned series is the
zero-filled series of full length 2 with first return 0, not a drop-policy
series of length 1. -/
theorem C5_cex_no_drop_policy :
    get_stock_data "SPY" (Except.ok ⟨[1, 2], [("Adj Close", [100, 110])]⟩) =
      (some [(1, 0), (2, 1/10)], none) ∧
    ([((1 : Nat), (0 : Rat)), (2, 1/10)]).length = 2 := by
  constructor
  · show (some [((1 : Nat), (0 : Rat)), (2, (110 : Rat) / 100 - 1)], none) =
      (some [(1, 0), (2, 1/10)], none)
    norm_num
  · rfl

/-- C6 (amended): no alignment step exists — for any fetched pair the
pipeline hands exactly the input series to the renderer (Full tier) and to
the metrics engine (Basic tier); no date-intersection restriction is
applied. -/
theorem C6_no_alignment (tk bm : String) (a b : ReturnSeries) :
    rendererArgs (generate_quantstats_report tk bm a b "Full") = some (a, b) ∧
    generate_quantstats_report tk bm a b "Basic" =
      ReportOutput.basic (generate_basic_report tk a b) := by
  constructor
  · rfl
  · rfl

/-- C6 counterexample: instrument dates [1, 2] and benchmark dates [2] — the
renderer receives the two series exactly as fetched, with lengths 2 and 1,
so the aligned-lengths-equal invariant fails. -/
theorem C6_cex_unaligned_series_passed :
    rendererArgs (generate_quantstats_report "SPY" "SPY"
        [(1, 0), (2, 0)] [(2, 0)] "Full") =
      some ([(1, 0), (2, 0)], [(2, 0)]) ∧
    ([((1 : Nat), (0 : Rat)), (2, 0)]).length = 2 ∧
    ([((2 : Nat), (0 : Rat))]).length = 1 := by
  refine ⟨?_, rfl, rfl⟩
  rfl

/-- C7: the fetcher resolves the price column by the fallback order — the
"Adj Close" column when present, otherwise the "Close" column — and it
fails with the no-price-column error exactly when neither column exists. -/
theorem C7_price_column_fallback (ticker : String) (df : DataFrame) :
    (∀ p, df.cols.lookup "Adj Close" = some p →
      resolve_prices ticker df = Except.ok p) ∧
    (df.cols.lookup "Adj Close" = none →
      ∀ p, df.cols.lookup "Close" = some p → resolve_prices ticker df = Except.ok p) ∧
    ((∃ e, resolve_prices ticker df = Except.error e) ↔
      df.cols.lookup "Adj Close" = none ∧ df.cols.lookup "Close" = none) := by
  rcases h1 : df.cols.lookup "Adj Close" with _ | p1 <;>
    rcases h2 : df.cols.lookup "Close" with _ | p2 <;>
    simp [resolve_prices, h1, h2]

/-- C7 witness: a frame holding both columns resolves to the Adj Close one. -/
theorem C7_price_column_fallback_witness :
    resolve_prices "SPY"
        ⟨[1], [("Adj Close", [100]), ("Close", [99])]⟩ =
      Except.ok [100] :=
  (C7_price_column_fallback "SPY"
    ⟨[1], [("Adj Close", [100]), ("Close", [99])]⟩).1 [100] rfl

/-- C8: a Basic-tier request never invokes the external renderer — the
result is the Basic report built from the metrics alone, and no renderer
invocation is recorded. -/
theorem C8_basic_never_renders (tk bm : String) (a b : ReturnSeries) :
    generate_quantstats_report tk bm a b "Basic" =
      ReportOutput.basic (generate_basic_report tk a b) ∧
    rendererArgs (generate_quantstats_report tk bm a b "Basic") = none := by
  constructor <;> rfl

/-- C9: the Basic report does not depend on the benchmark series —
`generate_basic_report` never reads its benchmark argument, so any two
benchmark inputs give identical reports. -/
theorem C9_benchmark_independent (tk : String) (r b1 b2 : ReturnSeries) :
    generate_basic_report tk r b1 = generate_basic_report tk r b2 := rfl

/-- C10 (amended): `get_stock_data` never raises and always returns a pair
with exactly one side set — either a series and no error, or no series and
an error message; the message, being str(e) of a provider exception, can be
the empty string. -/
theorem C10_result_shape (ticker : String) (history : Except String DataFrame) :
    (∃ s, get_stock_data ticker history = (some s, none)) ∨
    (∃ e, get_stock_data ticker history = (none, some e)) := by
  cases history with
  | error e => exact Or.inr ⟨e, rfl⟩
  | ok df =>
    cases hempty : df.dates.isEmpty with
    | true =>
      exact Or.inr ⟨"No data found for " ++ ticker, by simp [get_stock_data, hempty]⟩
    | false =>
      cases hres : resolve_prices ticker df with
      | error e => exact Or.inr ⟨e, by simp [get_stock_data, hempty, hres]⟩
      | ok prices =>
        exact Or.inl ⟨df.dates.zip (pct_change_fillna0 prices),
          by simp [get_stock_data, hempty, hres]⟩

/-- C10 counterexample: a provider exception whose message is the empty
string — the returned error component is the empty string, not a non-empty
message. -/
theorem C10_cex_empty_error_message :
    get_stock_data "SPY" (Except.error "") = (none, some "") := rfl
